import Mathlib

/-!
Verification development for the agno-agi marketing repository.

We shallowly embed the memory subsystem (`src/memory/memory_manager.py`),
the RAG knowledge subsystem (`src/knowledge/knowledge_manager.py`) and the
API toolkits (`src/toolkits/*.py`) as executable Lean definitions, and prove
the specification claims about them.

Modelling conventions:
* Python strings are Lean `String`s (for the knowledge-context claims,
  where character counts matter, Python strings are `List Char`).
* `datetime` values are abstract instants modelled as `Nat`; `isoformat`
  renders the instant as a decimal string and `fromisoformat` parses it back.
* `json.dumps`/`json.loads` round-trips of well-formed dictionaries are
  modelled as the identity on the dictionary value.
* Exceptions are modelled with `Except String`; a backend (redis client,
  sqlite connection, chroma collection, embedding model) is a record of
  operations acting on an explicit backend state, each of which may throw.
  A `try/except` block catches by pattern matching on the `Except` result.
-/

set_option autoImplicit false

namespace AgnoSpec

/-- State-and-exception computations: the shape of a Python method body that
mutates a backend of type `σ` and may raise. On an exception the state at the
raise point is kept, as in Python. -/
abbrev RM (σ : Type) (α : Type) := σ → Except String α × σ

/-- Sequencing of two effectful steps (Python `;`): the second runs only if
the first did not raise. -/
def bindE {σ α β : Type} (x : RM σ α) (f : α → RM σ β) : RM σ β := fun s =>
  match x s with
  | (.ok a, s') => f a s'
  | (.error e, s') => (.error e, s')

/-- A pure result (Python `return`). -/
def pureE {σ α : Type} (a : α) : RM σ α := fun s => (.ok a, s)

/-- Raising an exception (Python `raise`). -/
def throwE {σ α : Type} (e : String) : RM σ α := fun s => (.error e, s)

/-- Reading the backend state. -/
def getE {σ : Type} : RM σ σ := fun s => (.ok s, s)

/-- Replacing the backend state. -/
def modifyE {σ : Type} (f : σ → σ) : RM σ Unit := fun s => (.ok (), f s)

/-- Python `try: body except Exception: return default` around a whole method
body: the caught branch yields `default` and keeps the state reached so far. -/
def runCaught {σ α : Type} (body : RM σ α) (default : α) (s : σ) : α × σ :=
  match body s with
  | (.ok a, s') => (a, s')
  | (.error _, s') => (default, s')

/-- A `for` loop threading an accumulator, where an iteration may raise
(Python exceptions abort the whole loop). -/
def foldE {σ α β : Type} (f : β → α → RM σ β) : β → List α → RM σ β
  | b, [] => pureE b
  | b, a :: as => bindE (f b a) (fun b' => foldE f b' as)

/-- Update an association list at a key, keeping the key's position
(Python `dict` update / redis key overwrite semantics). -/
def updAssoc {α : Type} (k : String) (v : α) : List (String × α) → List (String × α)
  | [] => [(k, v)]
  | (k', v') :: rest => if k = k' then (k, v) :: rest else (k', v') :: updAssoc k v rest

/-! ## Memory entries (`src/memory/memory_manager.py`, `MemoryEntry` and
subclasses) -/

/-- A value stored in a serialized memory-entry dictionary: a string, a
metadata dictionary (string-valued, as produced by the code paths under
study), `None`, a list of strings, or a `datetime` instant (only present
after `from_dict` converts the `timestamp` field). -/
inductive Fval where
  | s (v : String)
  | m (v : List (String × String))
  | n
  | ls (v : List String)
  | dt (v : Nat)
  deriving DecidableEq, Repr

/-- A Python dictionary with string keys, as produced by `to_dict`. -/
abbrev Dict := List (String × Fval)

/-- `datetime.isoformat`, on our abstract instants. -/
def isoformat (t : Nat) : String := toString t

/-- The value of a decimal digit character. -/
def digitVal (c : Char) : Option Nat :=
  if 48 ≤ c.toNat ∧ c.toNat ≤ 57 then some (c.toNat - 48) else none

/-- Accumulating decimal parse of a character list. -/
def parseNatAux : Nat → List Char → Option Nat
  | acc, [] => some acc
  | acc, c :: cs =>
    match digitVal c with
    | some d => parseNatAux (acc * 10 + d) cs
    | none => none

/-- Parse a nonempty all-digit string as a natural number. -/
def strToNat (s : String) : Option Nat :=
  match s.data with
  | [] => none
  | l => parseNatAux 0 l

/-- `datetime.fromisoformat`: parses the rendering of an instant and raises
`ValueError` on any other string. -/
def fromisoformat (str : String) : Except String Nat :=
  match strToNat str with
  | some n => .ok n
  | none => .error "ValueError: invalid isoformat string"

/-- `MemoryEntry` (base dataclass): `id`, `content`, `metadata`,
`timestamp`, `memory_type`. -/
structure MemoryEntry where
  id : String
  content : String
  metadata : List (String × String)
  timestamp : Nat
  memory_type : String
  deriving DecidableEq, Repr

/-- `MemoryEntry.to_dict`: `asdict(self)` with the timestamp rendered via
`isoformat`. -/
def MemoryEntry.to_dict (e : MemoryEntry) : Dict :=
  [("id", .s e.id), ("content", .s e.content), ("metadata", .m e.metadata),
   ("timestamp", .s (isoformat e.timestamp)), ("memory_type", .s e.memory_type)]

/-- The dataclass fields of `MemoryEntry`: the keyword arguments its
constructor accepts. -/
def memoryEntryFieldNames : List String :=
  ["id", "content", "metadata", "timestamp", "memory_type"]

/-- `MemoryEntry.from_dict`: replaces `data['timestamp']` by
`datetime.fromisoformat(data['timestamp'])` (raising `KeyError` when the key
is missing and `TypeError`/`ValueError` when it is not a well-formed
timestamp string), then calls `cls(**data)`, which raises `TypeError` when
`data` holds a keyword that is not a field of `MemoryEntry` or misses a
required field. -/
def MemoryEntry.from_dict (data : Dict) : Except String MemoryEntry :=
  match List.lookup "timestamp" data with
  | none => .error "KeyError: timestamp"
  | some tv =>
    match tv with
    | .s tstr =>
      match fromisoformat tstr with
      | .error e => .error e
      | .ok t =>
        let data' := updAssoc "timestamp" (.dt t) data
        if data'.any (fun kv => ¬ memoryEntryFieldNames.contains kv.1) then
          .error "TypeError: unexpected keyword argument"
        else
          match List.lookup "id" data', List.lookup "content" data',
                List.lookup "metadata" data', List.lookup "memory_type" data' with
          | some (.s i), some (.s c), some (.m md), some (.s mt) =>
            .ok ⟨i, c, md, t, mt⟩
          | _, _, _, _ => .error "TypeError: missing required argument"
    | _ => .error "TypeError: fromisoformat argument must be str"

/-- `ConversationMemory`: subclass adding `session_id`, `agent_name`,
`user_input`, `agent_response`; `__post_init__` forces
`memory_type = "conversation"`. -/
structure ConversationMemory where
  id : String
  content : String
  metadata : List (String × String)
  timestamp : Nat
  session_id : String
  agent_name : String
  user_input : Option String
  agent_response : Option String
  deriving DecidableEq, Repr

/-- Rendering of an `Optional[str]` field under `asdict`. -/
def optFval : Option String → Fval
  | some v => .s v
  | none => .n

/-- `ConversationMemory.to_dict` (inherited): `asdict` lists the parent
fields then the subclass fields, with the timestamp as `isoformat`. -/
def ConversationMemory.to_dict (e : ConversationMemory) : Dict :=
  [("id", .s e.id), ("content", .s e.content), ("metadata", .m e.metadata),
   ("timestamp", .s (isoformat e.timestamp)), ("memory_type", .s "conversation"),
   ("session_id", .s e.session_id), ("agent_name", .s e.agent_name),
   ("user_input", optFval e.user_input), ("agent_response", optFval e.agent_response)]

/-- `CampaignMemory`: subclass adding `campaign_id`, `campaign_type`,
`success_metrics`, `lessons_learned`; `__post_init__` forces
`memory_type = "campaign"`. -/
structure CampaignMemory where
  id : String
  content : String
  metadata : List (String × String)
  timestamp : Nat
  campaign_id : String
  campaign_type : String
  success_metrics : List (String × String)
  lessons_learned : List String
  deriving DecidableEq, Repr

/-- `CampaignMemory.to_dict` (inherited `asdict`-based serialization). -/
def CampaignMemory.to_dict (e : CampaignMemory) : Dict :=
  [("id", .s e.id), ("content", .s e.content), ("metadata", .m e.metadata),
   ("timestamp", .s (isoformat e.timestamp)), ("memory_type", .s "campaign"),
   ("campaign_id", .s e.campaign_id), ("campaign_type", .s e.campaign_type),
   ("success_metrics", .m e.success_metrics), ("lessons_learned", .ls e.lessons_learned)]

/-- A memory entry as passed around dynamically in Python: either the base
class or one of the two subclasses. -/
inductive PyEntry where
  | base (e : MemoryEntry)
  | conv (e : ConversationMemory)
  | camp (e : CampaignMemory)
  deriving DecidableEq, Repr

/-- Dynamic dispatch of `entry.memory_type` (forced by `__post_init__` on
the subclasses). -/
def PyEntry.memory_type : PyEntry → String
  | .base e => e.memory_type
  | .conv _ => "conversation"
  | .camp _ => "campaign"

/-- Dynamic dispatch of `entry.id`. -/
def PyEntry.eid : PyEntry → String
  | .base e => e.id
  | .conv e => e.id
  | .camp e => e.id

/-- Dynamic dispatch of `entry.content`. -/
def PyEntry.content : PyEntry → String
  | .base e => e.content
  | .conv e => e.content
  | .camp e => e.content

/-- Dynamic dispatch of `entry.metadata`. -/
def PyEntry.metadata : PyEntry → List (String × String)
  | .base e => e.metadata
  | .conv e => e.metadata
  | .camp e => e.metadata

/-- Dynamic dispatch of `entry.timestamp`. -/
def PyEntry.timestamp : PyEntry → Nat
  | .base e => e.timestamp
  | .conv e => e.timestamp
  | .camp e => e.timestamp

/-- Dynamic dispatch of `entry.to_dict()`. -/
def PyEntry.to_dict : PyEntry → Dict
  | .base e => e.to_dict
  | .conv e => e.to_dict
  | .camp e => e.to_dict

/-! ## Redis backend model and `RedisMemoryProvider` -/

/-- The visible state of the redis server: string keys mapping to a stored
dictionary with an optional TTL in seconds, plus set keys mapping to their
members. -/
structure RedisDb where
  kv : List (String × Dict × Option Nat)
  sets : List (String × List String)
  deriving DecidableEq, Repr

/-- The empty redis database. -/
def emptyRedisDb : RedisDb := ⟨[], []⟩

/-- The redis client interface used by `RedisMemoryProvider`: each call may
raise (connection errors and the like) and acts on the server state. -/
structure RedisClient where
  setex : String → Nat → Dict → RM RedisDb Unit
  setKV : String → Dict → RM RedisDb Unit
  sadd : String → String → RM RedisDb Unit
  smembers : String → RM RedisDb (List String)
  getKV : String → RM RedisDb (Option Dict)
  existsKV : String → RM RedisDb Bool
  delKV : List String → RM RedisDb Unit
  srem : String → String → RM RedisDb Unit
  keysPat : String → RM RedisDb (List String)

/-- Add a member to a set (redis `SADD` on one member). -/
def saddMembers (m : String) (ms : List String) : List String :=
  if ms.contains m then ms else ms ++ [m]

/-- Keys of the key-value store matching a glob pattern of the shape
`prefix*` (the only shape the provider uses). -/
def keysMatching (pat : String) (db : RedisDb) : List String :=
  (db.kv.map Prod.fst).filter (fun k => (pat.dropRight 1).isPrefixOf k)

/-- A healthy redis client: every call succeeds, with standard redis
semantics on the explicit server state. -/
def goodRedisClient : RedisClient where
  setex k ttl d := modifyE fun db => { db with kv := updAssoc k (d, some ttl) db.kv }
  setKV k d := modifyE fun db => { db with kv := updAssoc k (d, none) db.kv }
  sadd k m := modifyE fun db =>
    { db with sets := updAssoc k (saddMembers m ((List.lookup k db.sets).getD [])) db.sets }
  smembers k := bindE getE fun db => pureE ((List.lookup k db.sets).getD [])
  getKV k := bindE getE fun db => pureE ((List.lookup k db.kv).map Prod.fst)
  existsKV k := bindE getE fun db => pureE ((List.lookup k db.kv).isSome)
  delKV ks := modifyE fun db => { db with kv := db.kv.filter (fun kv => ¬ ks.contains kv.1) }
  srem k m := modifyE fun db =>
    { db with sets := updAssoc k (((List.lookup k db.sets).getD []).erase m) db.sets }
  keysPat pat := bindE getE fun db => pureE (keysMatching pat db)

/-- A redis client whose every call raises `msg`: models a backend outage. -/
def failingRedisClient (msg : String) : RedisClient where
  setex _ _ _ := throwE msg
  setKV _ _ := throwE msg
  sadd _ _ := throwE msg
  smembers _ := throwE msg
  getKV _ := throwE msg
  existsKV _ := throwE msg
  delKV _ := throwE msg
  srem _ _ := throwE msg
  keysPat _ := throwE msg

/-- `RedisMemoryProvider.key_prefix`. -/
def prefixKey : String := "agno_memory"

/-- `RedisMemoryProvider._get_key`. -/
def redisKeyOf (memory_type eid : String) : String :=
  prefixKey ++ ":" ++ memory_type ++ ":" ++ eid

/-- `RedisMemoryProvider._get_pattern`. -/
def redisPatternOf (memory_type : String) : String :=
  prefixKey ++ ":" ++ memory_type ++ ":*"

/-- The index set key `f"{prefix}:index:{memory_type}"`. -/
def redisIndexKey (memory_type : String) : String :=
  prefixKey ++ ":index:" ++ memory_type

/-- Body of `RedisMemoryProvider.store` (the `try` block): serialize the
entry, `SETEX` it with a 24h TTL when it is conversation memory and `SET` it
otherwise, and record its id in the per-type index set. -/
def redisStoreBody (c : RedisClient) (entry : PyEntry) : RM RedisDb Bool :=
  let key := redisKeyOf entry.memory_type entry.eid
  let data := entry.to_dict
  bindE
    (if entry.memory_type = "conversation" then c.setex key 86400 data
     else c.setKV key data)
    (fun _ => bindE (c.sadd (redisIndexKey entry.memory_type) entry.eid)
      (fun _ => pureE true))

/-- `RedisMemoryProvider.store`: the body under catch-and-log, returning
`False` on any exception. -/
def redisStore (c : RedisClient) (entry : PyEntry) (db : RedisDb) : Bool × RedisDb :=
  runCaught (redisStoreBody c entry) false db

/-- `RedisMemoryProvider._matches_query`, restricted to attribute lookups:
which string does `getattr(entry, key)` yield on a base `MemoryEntry`?
`timestamp` and `metadata` exist but are not strings, so comparing them with
a query string always fails; other names are not attributes. -/
def attrTest (e : MemoryEntry) (key val : String) : Bool :=
  match key with
  | "id" => e.id = val
  | "content" => e.content = val
  | "timestamp" => false
  | "metadata" => false
  | _ => true

/-- The metadata clause of `_matches_query`: when the key is present in
`entry.metadata` its value must equal the query value. -/
def metaTest (e : MemoryEntry) (key val : String) : Bool :=
  match List.lookup key e.metadata with
  | some v => v = val
  | none => true

/-- `RedisMemoryProvider._matches_query`: every query pair other than
`memory_type` must pass both the attribute check and the metadata check. -/
def matchesQuery (e : MemoryEntry) (query : List (String × String)) : Bool :=
  query.all fun kv =>
    if kv.1 = "memory_type" then true
    else attrTest e kv.1 kv.2 && metaTest e kv.1 kv.2

/-- Stable descending insertion: place `e` before the first entry whose
timestamp is at most `e`'s, so that earlier-listed entries win ties. -/
def insertTsDesc (e : MemoryEntry) : List MemoryEntry → List MemoryEntry
  | [] => [e]
  | x :: xs => if x.timestamp ≤ e.timestamp then e :: x :: xs else x :: insertTsDesc e xs

/-- `entries.sort(key=lambda x: x.timestamp, reverse=True)`: a stable sort,
most recent first (insertion sort, extensionally equal to Python's stable
sort). -/
def sortByTimestampDesc (entries : List MemoryEntry) : List MemoryEntry :=
  entries.foldr insertTsDesc []

/-- Body of `RedisMemoryProvider.retrieve` (the `try` block): read the
per-type index, fetch and deserialize each indexed entry via
`MemoryEntry.from_dict` (whose exceptions abort the loop), filter with
`_matches_query`, sort by timestamp descending and truncate to `limit`. -/
def redisRetrieveBody (c : RedisClient) (query : List (String × String)) (limit : Nat) :
    RM RedisDb (List MemoryEntry) :=
  match List.lookup "memory_type" query with
  | none => pureE []
  | some memory_type =>
    if memory_type = "" then pureE []
    else
      bindE (c.smembers (redisIndexKey memory_type)) fun entry_ids =>
        bindE
          (foldE (fun acc entry_id =>
            bindE (c.getKV (redisKeyOf memory_type entry_id)) fun data? =>
              match data? with
              | none => pureE acc
              | some data =>
                match MemoryEntry.from_dict data with
                | .error e => throwE e
                | .ok entry =>
                  if matchesQuery entry query then pureE (acc ++ [entry]) else pureE acc)
            [] entry_ids)
          (fun entries => pureE ((sortByTimestampDesc entries).take limit))

/-- `RedisMemoryProvider.retrieve`: the body under catch-and-log, returning
the empty list on any exception. -/
def redisRetrieve (c : RedisClient) (query : List (String × String)) (limit : Nat)
    (db : RedisDb) : List MemoryEntry × RedisDb :=
  runCaught (redisRetrieveBody c query limit) [] db

/-- The `for memory_type in ["conversation", "campaign", "vector"]` loop of
`RedisMemoryProvider.delete`, with its early `return True` on the first
existing key (falling through to `return False`). -/
def redisDeleteLoop (c : RedisClient) (entry_id : String) : List String → RM RedisDb Bool
  | [] => pureE false
  | mt :: rest =>
    bindE (c.existsKV (redisKeyOf mt entry_id)) fun ex =>
      if ex then
        bindE (c.delKV [redisKeyOf mt entry_id]) fun _ =>
          bindE (c.srem (redisIndexKey mt) entry_id) fun _ => pureE true
      else redisDeleteLoop c entry_id rest

/-- Body of `RedisMemoryProvider.delete` (the `try` block): probe the key
under each of the three memory types, deleting the first hit together with
its index membership. -/
def redisDeleteBody (c : RedisClient) (entry_id : String) : RM RedisDb Bool :=
  redisDeleteLoop c entry_id ["conversation", "campaign", "vector"]

/-- `RedisMemoryProvider.delete`: the body under catch-and-log. -/
def redisDelete (c : RedisClient) (entry_id : String) (db : RedisDb) : Bool × RedisDb :=
  runCaught (redisDeleteBody c entry_id) false db

/-- Body of `RedisMemoryProvider.clear` (the `try` block): delete the keys
matching the per-type pattern and its index (or every `agno_memory:*` key
when no type is given). -/
def redisClearBody (c : RedisClient) (memory_type : Option String) : RM RedisDb Bool :=
  match memory_type with
  | some mt =>
    bindE (c.keysPat (redisPatternOf mt)) fun keys =>
      bindE (if keys.isEmpty then pureE () else c.delKV keys) fun _ =>
        bindE (c.delKV [redisIndexKey mt]) fun _ => pureE true
  | none =>
    bindE (c.keysPat (prefixKey ++ ":*")) fun keys =>
      bindE (if keys.isEmpty then pureE () else c.delKV keys) fun _ => pureE true

/-- `RedisMemoryProvider.clear`: the body under catch-and-log. -/
def redisClear (c : RedisClient) (memory_type : Option String) (db : RedisDb) :
    Bool × RedisDb :=
  runCaught (redisClearBody c memory_type) false db

/-! ## SQLite backend model and `SQLiteMemoryProvider` -/

/-- A row of the `memory_entries` table. -/
structure SqliteRow where
  id : String
  memory_type : String
  content : String
  metadata : List (String × String)
  timestamp : String
  deriving DecidableEq, Repr

/-- The `memory_entries` table. -/
structure SqliteDb where
  rows : List SqliteRow
  deriving DecidableEq, Repr

/-- The sqlite connection interface used by `SQLiteMemoryProvider`: each SQL
statement the provider issues, any of which may raise. -/
structure SqliteClient where
  execInsertOrReplace : SqliteRow → RM SqliteDb Unit
  querySelect : Option String → Nat → RM SqliteDb (List SqliteRow)
  execDeleteById : String → RM SqliteDb Nat
  execDeleteWhereType : Option String → RM SqliteDb Unit

/-- A sqlite connection whose every statement raises `msg`. -/
def failingSqliteClient (msg : String) : SqliteClient where
  execInsertOrReplace _ := throwE msg
  querySelect _ _ := throwE msg
  execDeleteById _ := throwE msg
  execDeleteWhereType _ := throwE msg

/-- Body of `SQLiteMemoryProvider.store` (the `try` block): `INSERT OR
REPLACE` the serialized entry. -/
def sqliteStoreBody (c : SqliteClient) (entry : PyEntry) : RM SqliteDb Bool :=
  bindE (c.execInsertOrReplace
    ⟨entry.eid, entry.memory_type, entry.content, entry.metadata,
     isoformat entry.timestamp⟩)
    (fun _ => pureE true)

/-- `SQLiteMemoryProvider.store`: the body under catch-and-log. -/
def sqliteStore (c : SqliteClient) (entry : PyEntry) (db : SqliteDb) : Bool × SqliteDb :=
  runCaught (sqliteStoreBody c entry) false db

/-- Body of `SQLiteMemoryProvider.retrieve` (the `try` block): `SELECT`
ordered by timestamp descending with the optional `memory_type` filter, then
rebuild each row through `MemoryEntry.from_dict`. -/
def sqliteRetrieveBody (c : SqliteClient) (query : List (String × String)) (limit : Nat) :
    RM SqliteDb (List MemoryEntry) :=
  bindE (c.querySelect (List.lookup "memory_type" query) limit) fun rows =>
    foldE (fun acc row =>
      match MemoryEntry.from_dict
        [("id", .s row.id), ("content", .s row.content), ("metadata", .m row.metadata),
         ("timestamp", .s row.timestamp), ("memory_type", .s row.memory_type)] with
      | .error e => throwE e
      | .ok entry => pureE (acc ++ [entry])) [] rows

/-- `SQLiteMemoryProvider.retrieve`: the body under catch-and-log. -/
def sqliteRetrieve (c : SqliteClient) (query : List (String × String)) (limit : Nat)
    (db : SqliteDb) : List MemoryEntry × SqliteDb :=
  runCaught (sqliteRetrieveBody c query limit) [] db

/-- Body of `SQLiteMemoryProvider.delete` (the `try` block): `DELETE` by id
and report whether a row was removed. -/
def sqliteDeleteBody (c : SqliteClient) (entry_id : String) : RM SqliteDb Bool :=
  bindE (c.execDeleteById entry_id) fun rowcount => pureE (decide (0 < rowcount))

/-- `SQLiteMemoryProvider.delete`: the body under catch-and-log. -/
def sqliteDelete (c : SqliteClient) (entry_id : String) (db : SqliteDb) : Bool × SqliteDb :=
  runCaught (sqliteDeleteBody c entry_id) false db

/-- Body of `SQLiteMemoryProvider.clear` (the `try` block). -/
def sqliteClearBody (c : SqliteClient) (memory_type : Option String) : RM SqliteDb Bool :=
  bindE (c.execDeleteWhereType memory_type) fun _ => pureE true

/-- `SQLiteMemoryProvider.clear`: the body under catch-and-log. -/
def sqliteClear (c : SqliteClient) (memory_type : Option String) (db : SqliteDb) :
    Bool × SqliteDb :=
  runCaught (sqliteClearBody c memory_type) false db

/-! ## ChromaDB backend model and `VectorMemoryProvider` -/

/-- An item of the chroma collection: id, embedding, metadata, document. -/
structure ChromaItem where
  cid : String
  embedding : List Int
  metadata : List (String × String)
  document : String
  deriving DecidableEq, Repr

/-- The chroma collection state. -/
structure ChromaDb where
  items : List ChromaItem
  deriving DecidableEq, Repr

/-- The external services `VectorMemoryProvider` calls: the sentence
embedding model and the chroma collection; every call may raise. A query
result is the per-hit `(id, metadata, document)` triple the code reads off
the parallel result lists. -/
structure VectorBackend where
  encode : String → RM ChromaDb (List Int)
  addItem : String → List Int → List (String × String) → String → RM ChromaDb Unit
  queryItems : List Int → Nat → Option String → RM ChromaDb (List (String × List (String × String) × String))
  deleteIds : List String → RM ChromaDb Unit
  deleteWhere : String → RM ChromaDb Unit
  deleteCollection : RM ChromaDb Unit
  createCollection : RM ChromaDb Unit

/-- A vector backend whose every call raises `msg`. -/
def failingVectorBackend (msg : String) : VectorBackend where
  encode _ := throwE msg
  addItem _ _ _ _ := throwE msg
  queryItems _ _ _ := throwE msg
  deleteIds _ := throwE msg
  deleteWhere _ := throwE msg
  deleteCollection := throwE msg
  createCollection := throwE msg

/-- Python `{**base, **extra}`-style update of a string dictionary: later
keys win, insertion order kept. -/
def mergePyDict (base extra : List (String × String)) : List (String × String) :=
  extra.foldl (fun acc kv => updAssoc kv.1 kv.2 acc) base

/-- Body of `VectorMemoryProvider.store` (the `try` block): embed the
content and add it to the collection with `memory_type`/`timestamp`
metadata merged over the entry metadata. -/
def vectorStoreBody (c : VectorBackend) (entry : PyEntry) : RM ChromaDb Bool :=
  bindE (c.encode entry.content) fun embedding =>
    bindE (c.addItem entry.eid embedding
      (mergePyDict [("memory_type", entry.memory_type),
                    ("timestamp", isoformat entry.timestamp)] entry.metadata)
      entry.content)
      (fun _ => pureE true)

/-- `VectorMemoryProvider.store`: the body under catch-and-log. -/
def vectorStore (c : VectorBackend) (entry : PyEntry) (db : ChromaDb) : Bool × ChromaDb :=
  runCaught (vectorStoreBody c entry) false db

/-- Rebuilding one query hit in `VectorMemoryProvider.retrieve`: reads
`metadata["timestamp"]` and `metadata["memory_type"]` (a `KeyError` or
`ValueError` aborts the loop) and strips them from the entry metadata. -/
def vectorHitToEntry (hit : String × List (String × String) × String) :
    Except String MemoryEntry :=
  match List.lookup "timestamp" hit.2.1 with
  | none => .error "KeyError: timestamp"
  | some ts =>
    match fromisoformat ts with
    | .error e => .error e
    | .ok t =>
      match List.lookup "memory_type" hit.2.1 with
      | none => .error "KeyError: memory_type"
      | some mt =>
        .ok ⟨hit.1, hit.2.2,
          hit.2.1.filter (fun kv => kv.1 ≠ "memory_type" ∧ kv.1 ≠ "timestamp"),
          t, mt⟩

/-- Body of `VectorMemoryProvider.retrieve` (the `try` block): embed the
query text (empty text short-circuits to `[]`), run the semantic query with
the optional `memory_type` where-clause, and rebuild each hit. -/
def vectorRetrieveBody (c : VectorBackend) (query : List (String × String)) (limit : Nat) :
    RM ChromaDb (List MemoryEntry) :=
  let query_text := (List.lookup "content" query).getD ""
  if query_text = "" then pureE []
  else
    bindE (c.encode query_text) fun qemb =>
      bindE (c.queryItems qemb limit (List.lookup "memory_type" query)) fun hits =>
        foldE (fun acc hit =>
          match vectorHitToEntry hit with
          | .error e => throwE e
          | .ok entry => pureE (acc ++ [entry])) [] hits

/-- `VectorMemoryProvider.retrieve`: the body under catch-and-log. -/
def vectorRetrieve (c : VectorBackend) (query : List (String × String)) (limit : Nat)
    (db : ChromaDb) : List MemoryEntry × ChromaDb :=
  runCaught (vectorRetrieveBody c query limit) [] db

/-- Body of `VectorMemoryProvider.delete` (the `try` block). -/
def vectorDeleteBody (c : VectorBackend) (entry_id : String) : RM ChromaDb Bool :=
  bindE (c.deleteIds [entry_id]) fun _ => pureE true

/-- `VectorMemoryProvider.delete`: the body under catch-and-log. -/
def vectorDelete (c : VectorBackend) (entry_id : String) (db : ChromaDb) : Bool × ChromaDb :=
  runCaught (vectorDeleteBody c entry_id) false db

/-- Body of `VectorMemoryProvider.clear` (the `try` block): delete by
where-clause, or recreate the collection when clearing everything. -/
def vectorClearBody (c : VectorBackend) (memory_type : Option String) : RM ChromaDb Bool :=
  match memory_type with
  | some mt => bindE (c.deleteWhere mt) fun _ => pureE true
  | none =>
    bindE c.deleteCollection fun _ =>
      bindE c.createCollection fun _ => pureE true

/-- `VectorMemoryProvider.clear`: the body under catch-and-log. -/
def vectorClear (c : VectorBackend) (memory_type : Option String) (db : ChromaDb) :
    Bool × ChromaDb :=
  runCaught (vectorClearBody c memory_type) false db

/-! ## `MultiLayerMemoryManager` -/

/-- A memory provider as seen by the manager: `store` yields the provider's
boolean (or, in principle, an exception captured by
`asyncio.gather(..., return_exceptions=True)`), `retrieve` yields a list
(the concrete providers catch their own exceptions). -/
structure MProvider (σ : Type) where
  store : PyEntry → σ → Except String Bool × σ
  retrieve : List (String × String) → Nat → σ → List MemoryEntry × σ

/-- The `RedisMemoryProvider` under a given client, as a manager-facing
provider (its operations never raise: they catch and log). -/
def redisProvider (c : RedisClient) : MProvider RedisDb where
  store entry db := let r := redisStore c entry db; (.ok r.1, r.2)
  retrieve query limit db := redisRetrieve c query limit db

/-- The provider triple held in `MultiLayerMemoryManager.providers`. -/
structure Manager (σ τ υ : Type) where
  short_term : MProvider σ
  long_term : MProvider τ
  vector : MProvider υ

/-- The states of the three providers. -/
structure ManagerState (σ τ υ : Type) where
  short_term : σ
  long_term : τ
  vector : υ

/-- `any(isinstance(r, bool) and r for r in results)` over the
`asyncio.gather(..., return_exceptions=True)` results: an exception object
is not a `bool`, so it never counts as a success. -/
def gatherAny (rs : List (Except String Bool)) : Bool :=
  rs.any fun r => match r with | .ok b => b | .error _ => false

/-- The `ConversationMemory` entry built by
`MultiLayerMemoryManager.store_conversation`; `tsNow` and `now` are the two
`datetime.now()` samples taken for the id and the timestamp field. -/
def mkConversationEntry (tsNow now : Nat) (session_id agent_name user_input agent_response : String)
    (metadata : Option (List (String × String))) : ConversationMemory where
  id := session_id ++ "_" ++ toString tsNow
  content := "User: " ++ user_input ++ "\nAgent: " ++ agent_response
  metadata := metadata.getD []
  timestamp := now
  session_id := session_id
  agent_name := agent_name
  user_input := some user_input
  agent_response := some agent_response

/-- `MultiLayerMemoryManager.store_conversation`: build the conversation
entry, store it in the short-term and vector providers, and succeed when at
least one write succeeded. -/
def Manager.storeConversation {σ τ υ : Type} (m : Manager σ τ υ) (tsNow now : Nat)
    (session_id agent_name user_input agent_response : String)
    (metadata : Option (List (String × String))) (st : ManagerState σ τ υ) :
    Bool × ManagerState σ τ υ :=
  let entry := PyEntry.conv
    (mkConversationEntry tsNow now session_id agent_name user_input agent_response metadata)
  let r1 := m.short_term.store entry st.short_term
  let r2 := m.vector.store entry st.vector
  (gatherAny [r1.1, r2.1], { st with short_term := r1.2, vector := r2.2 })

/-- The `CampaignMemory` entry built by
`MultiLayerMemoryManager.store_campaign_memory`; `metricsStr` and
`lessonsStr` stand for the `f"{success_metrics}"` / `f"{lessons_learned}"`
renderings interpolated into the content. -/
def mkCampaignEntry (tsNow now : Nat) (campaign_id campaign_type : String)
    (success_metrics : List (String × String)) (lessons_learned : List String)
    (metricsStr lessonsStr : String)
    (metadata : Option (List (String × String))) : CampaignMemory where
  id := "campaign_" ++ campaign_id ++ "_" ++ toString tsNow
  content := "Campaign: " ++ campaign_type ++ "\nMetrics: " ++ metricsStr
    ++ "\nLessons: " ++ lessonsStr
  metadata := metadata.getD []
  timestamp := now
  campaign_id := campaign_id
  campaign_type := campaign_type
  success_metrics := success_metrics
  lessons_learned := lessons_learned

/-- `MultiLayerMemoryManager.store_campaign_memory`: build the campaign
entry, store it in the long-term and vector providers, and succeed when at
least one write succeeded. -/
def Manager.storeCampaignMemory {σ τ υ : Type} (m : Manager σ τ υ) (tsNow now : Nat)
    (campaign_id campaign_type : String) (success_metrics : List (String × String))
    (lessons_learned : List String) (metricsStr lessonsStr : String)
    (metadata : Option (List (String × String))) (st : ManagerState σ τ υ) :
    Bool × ManagerState σ τ υ :=
  let entry := PyEntry.camp
    (mkCampaignEntry tsNow now campaign_id campaign_type success_metrics lessons_learned
      metricsStr lessonsStr metadata)
  let r1 := m.long_term.store entry st.long_term
  let r2 := m.vector.store entry st.vector
  (gatherAny [r1.1, r2.1], { st with long_term := r1.2, vector := r2.2 })

/-- `MultiLayerMemoryManager.get_conversation_history`: query the
short-term provider for conversation entries of the session. -/
def Manager.getConversationHistory {σ τ υ : Type} (m : Manager σ τ υ) (session_id : String)
    (limit : Nat) (st : ManagerState σ τ υ) : List MemoryEntry × ManagerState σ τ υ :=
  let r := m.short_term.retrieve
    [("memory_type", "conversation"), ("session_id", session_id)] limit st.short_term
  (r.1, { st with short_term := r.2 })

/-- `MultiLayerMemoryManager.cleanup_old_conversations`: computes a cutoff
(`datetime.now() - timedelta(days=days)`, in seconds) and — per the inline
comment, time-based deletion being unimplemented in the providers — touches
no provider and returns `True`. -/
def Manager.cleanupOldConversations {σ τ υ : Type} (_m : Manager σ τ υ) (now : Nat)
    (days : Nat) (st : ManagerState σ τ υ) : Bool × ManagerState σ τ υ :=
  let _cutoff := now - days * 86400
  (true, st)

/-! ## Fixed sleep-based rate limiting (`_rate_limit_wait` in
`apollo_toolkit.py`, `hubspot_toolkit.py`, `builtwith_toolkit.py`)

Wall-clock instants (`time.time()` readings) are rationals. A request's
time is the `time.time()` value recorded into `last_request_time` by
`_rate_limit_wait` immediately before the HTTP call is issued. -/

/-- The amount `_rate_limit_wait` sleeps: the remaining part of the minimum
interval, or nothing when enough time has elapsed. -/
def rateLimitSleep (minInterval last t0 : ℚ) : ℚ :=
  if t0 - last < minInterval then minInterval - (t0 - last) else 0

/-- `ApolloToolkit` / `HubSpotToolkit`: `min_interval = 60 / self.rate_limit`
(requests per minute to seconds per request). -/
def perMinuteInterval (rate_limit : ℚ) : ℚ := 60 / rate_limit

/-- `BuiltWithToolkit`: `min_interval = 1.0`. -/
def builtwithInterval : ℚ := 1

/-- One `_rate_limit_wait` call between consecutive requests: `last` is the
previously recorded `last_request_time`, `t0` the `time.time()` reading at
entry, `t1` the reading recorded as the new `last_request_time`. `time.sleep`
suspends for at least the requested duration, so `t1 ≥ t0 + sleep`. -/
def RateLimitStep (minInterval last t0 t1 : ℚ) : Prop :=
  t0 + rateLimitSleep minInterval last t0 ≤ t1

/-! ## RAG knowledge context (`RAGKnowledgeRetriever.get_context_for_query`)

Python strings are `List Char` here, so that `len` is `List.length`. -/

/-- One hit returned by `MarketingKnowledgeBase.search_knowledge`: the
fields `get_context_for_query` reads. -/
structure KResult where
  title : List Char
  category : List Char
  content : List Char
  deriving DecidableEq, Repr

/-- `result["content"][:500] + "..." if len(result["content"]) > 500 else
result["content"]`. -/
def contentPreview (c : List Char) : List Char :=
  if 500 < c.length then c.take 500 ++ "...".data else c

/-- `part = f"**{result['title']}** ({result['category']}):\n{content_preview}\n"`. -/
def mkContextPart (r : KResult) : List Char :=
  "**".data ++ r.title ++ "** (".data ++ r.category ++ "):\n".data
    ++ contentPreview r.content ++ "\n".data

/-- The context-building loop: include each part unless doing so pushes the
running total `current_length` past `max_context_length`, in which case
`break`. -/
def buildContextParts (maxLen : Nat) : List KResult → Nat → List (List Char)
  | [], _ => []
  | r :: rs, cur =>
    let part := mkContextPart r
    if maxLen < cur + part.length then []
    else part :: buildContextParts maxLen rs (cur + part.length)

/-- Python `sep.join(parts)`. -/
def joinSep (sep : List Char) : List (List Char) → List Char
  | [] => []
  | [x] => x
  | x :: xs => x ++ sep ++ joinSep sep xs

/-- `RAGKnowledgeRetriever.get_context_for_query` after the knowledge search
returned `results` (at most 3 hits): the no-results message, or the included
parts joined with `"\n"`. -/
def getContextForQuery (results : List KResult) (maxLen : Nat) : List Char :=
  if results.isEmpty then "No relevant knowledge found.".data
  else joinSep "\n".data (buildContextParts maxLen results 0)

/-! ## `ApolloToolkit` (`src/toolkits/apollo_toolkit.py`) -/

/-- `if not self.api_key:` — the key is missing when unset or empty. -/
def apolloKeyMissing : Option String → Bool
  | none => true
  | some s => s = ""

/-- `_make_request` as seen by a tool method: raises `ValueError` when the
API key is not configured, otherwise yields the network outcome (any
`requests` exception is re-raised to the caller). -/
def apolloMakeRequest {α : Type} (api_key : Option String) (net : Except String α) :
    Except String α :=
  if apolloKeyMissing api_key then .error "ValueError: Apollo API key not configured"
  else net

/-- A payload value in an Apollo search request body. -/
inductive PayV where
  | i (v : Int)
  | s (v : String)
  | ls (v : List String)
  deriving DecidableEq, Repr

/-- `if param: data[key] = param` for an optional string parameter (`None`
and `""` are falsy). -/
def optStrField (key : String) : Option String → List (String × PayV)
  | some s => if s = "" then [] else [(key, .s s)]
  | none => []

/-- `if param: data[key] = param` for an optional list parameter (`None` and
`[]` are falsy). -/
def optListField (key : String) : Option (List String) → List (String × PayV)
  | some l => if l.isEmpty then [] else [(key, .ls l)]
  | none => []

/-- The request payload built by `ApolloToolkit.search_people`:
`{"page": page, "per_page": min(per_page, 100)}` (Apollo max is 100) plus
the truthy filters. -/
def searchPeoplePayload (query : Option String)
    (company_names titles industries locations seniority_levels : Option (List String))
    (page per_page : Int) : List (String × PayV) :=
  [("page", .i page), ("per_page", .i (min per_page 100))]
    ++ optStrField "q" query
    ++ optListField "organization_names" company_names
    ++ optListField "person_titles" titles
    ++ optListField "organization_industry_tag_ids" industries
    ++ optListField "person_locations" locations
    ++ optListField "person_seniority" seniority_levels

/-- The request payload built by `ApolloToolkit.search_organizations`. -/
def searchOrganizationsPayload (query : Option String)
    (industries locations size_ranges revenue_ranges technologies : Option (List String))
    (page per_page : Int) : List (String × PayV) :=
  [("page", .i page), ("per_page", .i (min per_page 100))]
    ++ optStrField "q" query
    ++ optListField "organization_industry_tag_ids" industries
    ++ optListField "organization_locations" locations
    ++ optListField "organization_num_employees_ranges" size_ranges
    ++ optListField "organization_revenue_ranges" revenue_ranges
    ++ optListField "technology_names" technologies

/-- The fields of a person object that the toolkit reads
(`organization_name` stands for `person.get("organization", {}).get("name")`). -/
structure ApolloPerson where
  pid : Option String
  first_name : Option String
  last_name : Option String
  name : Option String
  email : Option String
  title : Option String
  organization_name : Option String
  linkedin_url : Option String
  phone : Option String
  deriving DecidableEq, Repr

/-- One entry of `Contact.to_dict` (fields that are `None` are dropped). -/
def optEntry (key : String) : Option String → List (String × String)
  | some v => [(key, v)]
  | none => []

/-- `Contact(...).to_dict()` for a person object, in dataclass field
order. -/
def contactToDict (p : ApolloPerson) : List (String × String) :=
  optEntry "id" p.pid ++ optEntry "first_name" p.first_name
    ++ optEntry "last_name" p.last_name ++ optEntry "name" p.name
    ++ optEntry "email" p.email ++ optEntry "title" p.title
    ++ optEntry "company_name" p.organization_name
    ++ optEntry "linkedin_url" p.linkedin_url ++ optEntry "phone" p.phone

/-- The fields of an organization object that the toolkit reads
(`industry` stands for the guarded `primary_industry.industry` access,
`phone_source` for the guarded `primary_phone.source` access). -/
structure ApolloOrg where
  oid : Option String
  name : Option String
  primary_domain : Option String
  industry : Option String
  employee_count : Option String
  phone_source : Option String
  estimated_num_employees : Option String
  technologies : List (Option String)
  deriving DecidableEq, Repr

/-- A value of a `Company.to_dict` dictionary: a string field or the
technology-name list. -/
inductive CVal where
  | cs (v : String)
  | cls (v : List (Option String))
  deriving DecidableEq, Repr

/-- One string entry of `Company.to_dict` (dropped when `None`). -/
def optCEntry (key : String) : Option String → List (String × CVal)
  | some v => [(key, .cs v)]
  | none => []

/-- `Company(...).to_dict()` for an organization object: `None` fields are
dropped; `technologies` is always a list, hence always kept. -/
def companyToDict (o : ApolloOrg) : List (String × CVal) :=
  optCEntry "id" o.oid ++ optCEntry "name" o.name
    ++ optCEntry "domain" o.primary_domain ++ optCEntry "industry" o.industry
    ++ optCEntry "size" o.employee_count ++ optCEntry "location" o.phone_source
    ++ optCEntry "revenue" o.estimated_num_employees
    ++ [("technologies", .cls o.technologies)]

/-- The parts of the people-search response JSON that the method reads. -/
structure PeopleSearchPayload where
  people : List ApolloPerson
  total_entries : Option Int
  page : Option Int
  per_page : Option Int
  num_pages : Option Int
  deriving DecidableEq, Repr

/-- The parts of the organization-search response JSON that the method
reads. -/
structure OrgSearchPayload where
  organizations : List ApolloOrg
  total_entries : Option Int
  page : Option Int
  per_page : Option Int
  num_pages : Option Int
  deriving DecidableEq, Repr

/-- A value of a tool-method result dictionary. -/
inductive RV where
  | vs (v : String)
  | vi (v : Int)
  | vnone
  | vb (v : Bool)
  | vdicts (v : List (List (String × String)))
  | vdict (v : List (String × String))
  | vcomps (v : List (List (String × CVal)))
  | vcomp (v : List (String × CVal))
  deriving DecidableEq, Repr

/-- `ApolloToolkit.search_people`: on success, the reshaped contact list
with pagination defaults; on any exception from `_make_request` (including
the missing-key `ValueError`), the caught-and-logged
`{"contacts": [], "error": str(e)}`. -/
def searchPeople (page per_page : Int) (api_key : Option String)
    (net : Except String PeopleSearchPayload) : List (String × RV) :=
  match apolloMakeRequest api_key net with
  | .ok result =>
    [("contacts", .vdicts (result.people.map contactToDict)),
     ("total_entries", .vi (result.total_entries.getD 0)),
     ("page", .vi (result.page.getD page)),
     ("per_page", .vi (result.per_page.getD per_page)),
     ("num_pages", .vi (result.num_pages.getD 0))]
  | .error e => [("contacts", .vdicts []), ("error", .vs e)]

/-- `ApolloToolkit.search_organizations`: same shape over organizations. -/
def searchOrganizations (page per_page : Int) (api_key : Option String)
    (net : Except String OrgSearchPayload) : List (String × RV) :=
  match apolloMakeRequest api_key net with
  | .ok result =>
    [("companies", .vcomps (result.organizations.map companyToDict)),
     ("total_entries", .vi (result.total_entries.getD 0)),
     ("page", .vi (result.page.getD page)),
     ("per_page", .vi (result.per_page.getD per_page)),
     ("num_pages", .vi (result.num_pages.getD 0))]
  | .error e => [("companies", .vcomps []), ("error", .vs e)]

/-- `ApolloToolkit.enrich_contact`: the response's optional `person`
object decides enrichment; exceptions yield
`{"contact": None, "enriched": False, "error": str(e)}`. -/
def enrichContact (api_key : Option String) (net : Except String (Option ApolloPerson)) :
    List (String × RV) :=
  match apolloMakeRequest api_key net with
  | .ok (some person) => [("contact", .vdict (contactToDict person)), ("enriched", .vb true)]
  | .ok none => [("contact", .vnone), ("enriched", .vb false), ("message", .vs "Contact not found")]
  | .error e => [("contact", .vnone), ("enriched", .vb false), ("error", .vs e)]

/-- `ApolloToolkit.enrich_company`. -/
def enrichCompany (api_key : Option String) (net : Except String (Option ApolloOrg)) :
    List (String × RV) :=
  match apolloMakeRequest api_key net with
  | .ok (some org) => [("company", .vcomp (companyToDict org)), ("enriched", .vb true)]
  | .ok none => [("company", .vnone), ("enriched", .vb false), ("message", .vs "Company not found")]
  | .error e => [("company", .vnone), ("enriched", .vb false), ("error", .vs e)]

/-- `ApolloToolkit.get_contact_details`. -/
def getContactDetails (api_key : Option String) (net : Except String (Option ApolloPerson)) :
    List (String × RV) :=
  match apolloMakeRequest api_key net with
  | .ok (some person) => [("contact", .vdict (contactToDict person)), ("found", .vb true)]
  | .ok none => [("contact", .vnone), ("found", .vb false), ("message", .vs "Contact not found")]
  | .error e => [("contact", .vnone), ("found", .vb false), ("error", .vs e)]

/-- `ApolloToolkit.find_similar_companies`: enrich the reference company
(that call catches its own exceptions), bail out with
`{"companies": [], "error": "Reference company not found"}` unless enriched,
then search with filters derived from the reference company (the filters
shape only the outgoing payload, not the response, so they are elided here)
and drop the reference domain from the hits. `net1` is the enrichment
network outcome, `net2` the search network outcome. -/
def findSimilarCompanies (company_domain : String) (limit : Nat) (api_key : Option String)
    (net1 : Except String (Option ApolloOrg)) (net2 : Except String OrgSearchPayload) :
    List (String × RV) :=
  let company_data := enrichCompany api_key net1
  if List.lookup "enriched" company_data ≠ some (.vb true) then
    [("companies", .vcomps []), ("error", .vs "Reference company not found")]
  else
    match List.lookup "company" company_data with
    | some (.vcomp ref_company) =>
      let result := searchOrganizations 1 (Int.ofNat limit) api_key net2
      let companies := match List.lookup "companies" result with
        | some (.vcomps cs) => cs
        | _ => []
      let similar := companies.filter
        (fun cd => List.lookup "domain" cd ≠ some (.cs company_domain))
      [("companies", .vcomps (similar.take limit)),
       ("reference_company", .vcomp ref_company),
       ("total_found", .vi similar.length)]
    | _ => [("companies", .vcomps []), ("error", .vs "KeyError: company")]

/-! ## `MarketingKnowledgeBase.add_knowledge` -/

/-- `MarketingKnowledgeBase.add_knowledge`, parametrized by the external
`hashlib.md5(...).hexdigest()` function and by the combined outcome of the
external embedding-and-`collection.add` step (the `try` block): the document
id is the digest of `f"{title}_{content}"`; on success it is returned, and
any exception is logged and re-raised. The document and collection metadata
built from `document_type`, `category`, `tags` and `metadata` do not touch
the id. -/
def addKnowledge (md5Hex : String → String) (title content : String)
    (_document_type _category : String) (_tags : List String)
    (_metadata : Option (List (String × String)))
    (addOutcome : Except String Unit) : Except String String :=
  let doc_id := md5Hex (title ++ "_" ++ content)
  match addOutcome with
  | .ok _ => .ok doc_id
  | .error e => .error e

/-! ## Concrete fixtures used in closed statements -/

/-- An inert provider over a unit state, used to fill the manager slots a
concrete statement does not exercise. -/
def unitProvider : MProvider Unit where
  store _ s := (.ok true, s)
  retrieve _ _ s := ([], s)

/-- A week-old base conversation entry (timestamp instant `0`). -/
def oldConvEntry : MemoryEntry := ⟨"old1", "old content", [], 0, "conversation"⟩

/-- A redis state holding `oldConvEntry`, serialized and indexed the way
`RedisMemoryProvider.store` lays it out for a base entry. -/
def oldConvDb : RedisDb :=
  ⟨[(redisKeyOf "conversation" "old1", MemoryEntry.to_dict oldConvEntry, some 86400)],
   [(redisIndexKey "conversation", ["old1"])]⟩

/-- The manager wired to the healthy redis short-term provider and inert
long-term/vector slots. -/
def redisBackedManager : Manager RedisDb Unit Unit :=
  ⟨redisProvider goodRedisClient, unitProvider, unitProvider⟩

/-! ## Helper lemmas -/

theorem lookup_updAssoc_self {α : Type} (k : String) (v : α) (l : List (String × α)) :
    List.lookup k (updAssoc k v l) = some v := by
  induction l with
  | nil => simp [updAssoc, List.lookup]
  | cons hd tl ih =>
    by_cases h : k = hd.1
    · simp [updAssoc, h, List.lookup]
    · have hb : (k == hd.1) = false := beq_eq_false_iff_ne.mpr h
      simp [updAssoc, h, List.lookup, hb, ih]

/-- Deserializing the serialization of a `ConversationMemory` always raises:
the dictionary carries the subclass keywords, which `MemoryEntry.__init__`
rejects (and if the timestamp string failed to parse, that raises first). -/
theorem from_dict_conv_error (e : ConversationMemory) :
    ∃ msg, MemoryEntry.from_dict e.to_dict = .error msg := by
  unfold MemoryEntry.from_dict ConversationMemory.to_dict
  simp only [List.lookup, fromisoformat, isoformat]
  rcases h : strToNat (toString e.timestamp) with _ | t
  · simp [h]
  · simp [h, updAssoc, memoryEntryFieldNames]

theorem gatherAny_pair (a b : Except String Bool) :
    gatherAny [a, b] = true ↔ a = .ok true ∨ b = .ok true := by
  rcases a with ea | ba <;> rcases b with eb | bb
  · simp [gatherAny]
  · cases bb <;> simp [gatherAny]
  · cases ba <;> simp [gatherAny]
  · cases ba <;> cases bb <;> simp [gatherAny]

/-! ## Claim C1 -/

/-- C1: the store-then-retrieve round trip for conversations FAILS in the
code (code bug). Storing any conversation via
`MultiLayerMemoryManager.store_conversation` (with the default redis
short-term provider and a healthy backend) and then calling
`get_conversation_history` for the same session returns `[]`, not a list
containing the stored entry: `RedisMemoryProvider.retrieve` feeds the
serialized dictionary — which carries the `ConversationMemory`-only keys
`session_id`, `agent_name`, `user_input`, `agent_response` — to
`MemoryEntry.from_dict`, whose `cls(**data)` raises `TypeError` on those
unexpected keywords; `retrieve` catches the exception and returns the empty
list. -/
theorem store_conversation_then_history_is_empty
    {τ υ : Type} (pl : MProvider τ) (pv : MProvider υ) (lt : τ) (vt : υ)
    (tsNow now : Nat) (session_id agent_name user_input agent_response : String)
    (metadata : Option (List (String × String))) (limit : Nat) :
    ((Manager.mk (redisProvider goodRedisClient) pl pv).getConversationHistory session_id limit
      ((Manager.mk (redisProvider goodRedisClient) pl pv).storeConversation tsNow now
        session_id agent_name user_input agent_response metadata
        ⟨emptyRedisDb, lt, vt⟩).2).1 = [] := by
  obtain ⟨msg, hmsg⟩ := from_dict_conv_error
    (mkConversationEntry tsNow now session_id agent_name user_input agent_response metadata)
  show (redisRetrieve goodRedisClient
      [("memory_type", "conversation"), ("session_id", session_id)] limit
      ⟨[(redisKeyOf "conversation"
           (mkConversationEntry tsNow now session_id agent_name user_input agent_response
             metadata).id,
         ConversationMemory.to_dict
           (mkConversationEntry tsNow now session_id agent_name user_input agent_response
             metadata), some 86400)],
        [(redisIndexKey "conversation",
          [(mkConversationEntry tsNow now session_id agent_name user_input agent_response
             metadata).id])]⟩).1 = []
  simp [redisRetrieve, redisRetrieveBody, runCaught, bindE, pureE, throwE, getE,
    goodRedisClient, foldE, List.lookup, hmsg]

/-! ## Claim C4 -/

/-- C4: `RedisMemoryProvider.store` (healthy backend) writes a conversation
entry with a 24-hour (86400 s) TTL and every other memory type with no
expiration, and reports success. -/
theorem redis_store_ttl (entry : PyEntry) (db : RedisDb) :
    (redisStore goodRedisClient entry db).1 = true ∧
    List.lookup (redisKeyOf entry.memory_type entry.eid)
        (redisStore goodRedisClient entry db).2.kv
      = some (entry.to_dict,
          if entry.memory_type = "conversation" then some 86400 else none) := by
  by_cases h : entry.memory_type = "conversation" <;>
    simp [redisStore, runCaught, redisStoreBody, goodRedisClient, bindE, pureE, modifyE, h,
      lookup_updAssoc_self]

/-! ## Claim C2 -/

/-- C2: every memory provider (redis, sqlite, chroma vector) catches any
exception its backend raises on any of the four operations and returns the
failure value (`False` for store/delete/clear, `[]` for retrieve) instead of
propagating it: here the backend raising an arbitrary exception `msg` on
every call. -/
theorem providers_catch_backend_failures (msg : String) (entry : PyEntry)
    (query : List (String × String)) (limit : Nat) (entry_id : String)
    (memory_type : Option String) (rdb : RedisDb) (sdb : SqliteDb) (cdb : ChromaDb) :
    (redisStore (failingRedisClient msg) entry rdb).1 = false ∧
    (redisRetrieve (failingRedisClient msg) query limit rdb).1 = [] ∧
    (redisDelete (failingRedisClient msg) entry_id rdb).1 = false ∧
    (redisClear (failingRedisClient msg) memory_type rdb).1 = false ∧
    (sqliteStore (failingSqliteClient msg) entry sdb).1 = false ∧
    (sqliteRetrieve (failingSqliteClient msg) query limit sdb).1 = [] ∧
    (sqliteDelete (failingSqliteClient msg) entry_id sdb).1 = false ∧
    (sqliteClear (failingSqliteClient msg) memory_type sdb).1 = false ∧
    (vectorStore (failingVectorBackend msg) entry cdb).1 = false ∧
    (vectorRetrieve (failingVectorBackend msg) query limit cdb).1 = [] ∧
    (vectorDelete (failingVectorBackend msg) entry_id cdb).1 = false ∧
    (vectorClear (failingVectorBackend msg) memory_type cdb).1 = false := by
  refine ⟨?_, ?_, ?_, ?_, ?_, ?_, ?_, ?_, ?_, ?_, ?_, ?_⟩
  · simp [redisStore, runCaught, redisStoreBody, failingRedisClient, bindE, throwE]
  · rcases hmt : List.lookup "memory_type" query with _ | mt
    · simp [redisRetrieve, runCaught, redisRetrieveBody, hmt, pureE]
    · by_cases hm : mt = "" <;>
        simp [redisRetrieve, runCaught, redisRetrieveBody, hmt, hm, pureE,
          failingRedisClient, bindE, throwE]
  · simp [redisDelete, runCaught, redisDeleteBody, redisDeleteLoop, failingRedisClient,
      bindE, throwE]
  · rcases memory_type with _ | mt <;>
      simp [redisClear, runCaught, redisClearBody, failingRedisClient, bindE, throwE]
  · simp [sqliteStore, runCaught, sqliteStoreBody, failingSqliteClient, bindE, throwE]
  · simp [sqliteRetrieve, runCaught, sqliteRetrieveBody, failingSqliteClient, bindE, throwE]
  · simp [sqliteDelete, runCaught, sqliteDeleteBody, failingSqliteClient, bindE, throwE]
  · simp [sqliteClear, runCaught, sqliteClearBody, failingSqliteClient, bindE, throwE]
  · simp [vectorStore, runCaught, vectorStoreBody, failingVectorBackend, bindE, throwE]
  · by_cases hq : (List.lookup "content" query).getD "" = "" <;>
      simp [vectorRetrieve, runCaught, vectorRetrieveBody, hq, pureE,
        failingVectorBackend, bindE, throwE]
  · simp [vectorDelete, runCaught, vectorDeleteBody, failingVectorBackend, bindE, throwE]
  · rcases memory_type with _ | mt <;>
      simp [vectorClear, runCaught, vectorClearBody, failingVectorBackend, bindE, throwE]

/-! ## Claim C3 -/

/-- C3: `store_conversation` writes the constructed entry to exactly the
short-term and vector providers (the long-term state is untouched), and
`store_campaign_memory` to exactly the long-term and vector providers (the
short-term state is untouched); each returns `True` iff at least one of its
two provider writes returned `True`. -/
theorem fanout_store_routing {σ τ υ : Type} (m : Manager σ τ υ) (st : ManagerState σ τ υ)
    (tsNow now : Nat) (session_id agent_name user_input agent_response : String)
    (md : Option (List (String × String)))
    (campaign_id campaign_type : String) (metrics : List (String × String))
    (lessons : List String) (metricsStr lessonsStr : String)
    (cmd : Option (List (String × String))) :
    ((m.storeConversation tsNow now session_id agent_name user_input agent_response md
        st).2.long_term = st.long_term ∧
     (m.storeConversation tsNow now session_id agent_name user_input agent_response md
        st).2.short_term
       = (m.short_term.store
           (PyEntry.conv (mkConversationEntry tsNow now session_id agent_name user_input
             agent_response md)) st.short_term).2 ∧
     (m.storeConversation tsNow now session_id agent_name user_input agent_response md
        st).2.vector
       = (m.vector.store
           (PyEntry.conv (mkConversationEntry tsNow now session_id agent_name user_input
             agent_response md)) st.vector).2 ∧
     ((m.storeConversation tsNow now session_id agent_name user_input agent_response md
        st).1 = true ↔
       (m.short_term.store
           (PyEntry.conv (mkConversationEntry tsNow now session_id agent_name user_input
             agent_response md)) st.short_term).1 = .ok true ∨
       (m.vector.store
           (PyEntry.conv (mkConversationEntry tsNow now session_id agent_name user_input
             agent_response md)) st.vector).1 = .ok true)) ∧
    ((m.storeCampaignMemory tsNow now campaign_id campaign_type metrics lessons
        metricsStr lessonsStr cmd st).2.short_term = st.short_term ∧
     (m.storeCampaignMemory tsNow now campaign_id campaign_type metrics lessons
        metricsStr lessonsStr cmd st).2.long_term
       = (m.long_term.store
           (PyEntry.camp (mkCampaignEntry tsNow now campaign_id campaign_type metrics
             lessons metricsStr lessonsStr cmd)) st.long_term).2 ∧
     (m.storeCampaignMemory tsNow now campaign_id campaign_type metrics lessons
        metricsStr lessonsStr cmd st).2.vector
       = (m.vector.store
           (PyEntry.camp (mkCampaignEntry tsNow now campaign_id campaign_type metrics
             lessons metricsStr lessonsStr cmd)) st.vector).2 ∧
     ((m.storeCampaignMemory tsNow now campaign_id campaign_type metrics lessons
        metricsStr lessonsStr cmd st).1 = true ↔
       (m.long_term.store
           (PyEntry.camp (mkCampaignEntry tsNow now campaign_id campaign_type metrics
             lessons metricsStr lessonsStr cmd)) st.long_term).1 = .ok true ∨
       (m.vector.store
           (PyEntry.camp (mkCampaignEntry tsNow now campaign_id campaign_type metrics
             lessons metricsStr lessonsStr cmd)) st.vector).1 = .ok true)) := by
  exact ⟨⟨rfl, rfl, rfl, gatherAny_pair _ _⟩, ⟨rfl, rfl, rfl, gatherAny_pair _ _⟩⟩

/-! ## Claim C5 -/

/-- C5 counterexample: `cleanup_old_conversations(7)` does NOT delete a
conversation entry a week older than the cutoff. On a concrete state holding
a conversation entry with timestamp `0`, with now `10000000` (so the entry
is far older than the 7-day cutoff), the call returns `True` yet leaves the
state unchanged, and the old entry is still retrieved afterwards. -/
theorem cleanup_leaves_old_conversation :
    redisBackedManager.cleanupOldConversations 10000000 7 ⟨oldConvDb, (), ()⟩
        = (true, ⟨oldConvDb, (), ()⟩) ∧
    oldConvEntry.timestamp + 7 * 86400 < 10000000 ∧
    (redisRetrieve goodRedisClient [("memory_type", "conversation")] 10
        (redisBackedManager.cleanupOldConversations 10000000 7
          ⟨oldConvDb, (), ()⟩).2.short_term).1 = [oldConvEntry] := by
  refine ⟨rfl, by decide, ?_⟩
  rfl

/-- C5 amended: `cleanup_old_conversations` deletes nothing at all — it
computes a cutoff, leaves every provider state unchanged, and returns
`True` unconditionally. -/
theorem cleanup_is_a_noop {σ τ υ : Type} (m : Manager σ τ υ) (now days : Nat)
    (st : ManagerState σ τ υ) :
    m.cleanupOldConversations now days st = (true, st) := rfl

/-! ## Claim C6 -/

/-- A single `_rate_limit_wait` pass guarantees the recorded request time is
at least `minInterval` after the previously recorded one. -/
theorem rateLimitStep_separation (minInterval last t0 t1 : ℚ)
    (h : RateLimitStep minInterval last t0 t1) : minInterval ≤ t1 - last := by
  unfold RateLimitStep rateLimitSleep at h
  by_cases hc : t0 - last < minInterval
  · rw [if_pos hc] at h
    linarith
  · rw [if_neg hc] at h
    push_neg at hc
    linarith

/-- C6: consecutive requests through `_make_request` are separated by at
least the fixed minimum interval — `60 / rate_limit` seconds for
`ApolloToolkit` and `HubSpotToolkit` and `1` second for `BuiltWithToolkit` —
where a request's time is the `time.time()` reading `_rate_limit_wait`
records into `last_request_time` just before the request is issued, and
`time.sleep(d)` suspends for at least `d`. -/
theorem rate_limit_min_separation (rate_limit : ℚ) (hrl : 0 < rate_limit)
    (lastA t0A t1A lastH t0H t1H lastB t0B t1B : ℚ)
    (hA : RateLimitStep (perMinuteInterval rate_limit) lastA t0A t1A)
    (hH : RateLimitStep (perMinuteInterval rate_limit) lastH t0H t1H)
    (hB : RateLimitStep builtwithInterval lastB t0B t1B) :
    perMinuteInterval rate_limit ≤ t1A - lastA ∧
    perMinuteInterval rate_limit ≤ t1H - lastH ∧
    builtwithInterval ≤ t1B - lastB :=
  ⟨rateLimitStep_separation _ _ _ _ hA, rateLimitStep_separation _ _ _ _ hH,
   rateLimitStep_separation _ _ _ _ hB⟩

/-- C6 witness: a concrete run at 100 requests/minute. The toolkit sleeps
`0.6 s` from `t0 = 0` with `last = 0`, records `t1 = 3/5`, and the
separation bounds hold; the BuiltWith step needs no sleep from `t0 = 2`. -/
theorem rate_limit_min_separation_witness :
    perMinuteInterval 100 ≤ (3 / 5 : ℚ) - 0 ∧
    perMinuteInterval 100 ≤ (3 / 5 : ℚ) - 0 ∧
    builtwithInterval ≤ (2 : ℚ) - 0 :=
  rate_limit_min_separation 100 (by norm_num) 0 0 (3 / 5) 0 0 (3 / 5) 0 2 2
    (by norm_num [RateLimitStep, rateLimitSleep, perMinuteInterval])
    (by norm_num [RateLimitStep, rateLimitSleep, perMinuteInterval])
    (by norm_num [RateLimitStep, rateLimitSleep, builtwithInterval])

/-! ## Claim C7 -/

/-- C7 counterexample: with two hits of title `"t"`, category `"c"`,
content `"x"` (each snippet is 13 characters) and
`max_context_length = 26`, the loop admits both snippets (sum 26 ≤ 26) but
`"\n".join` produces 27 characters — exceeding `max_context_length`. -/
theorem context_exceeds_max_length :
    ¬ ((getContextForQuery
        [⟨"t".data, "c".data, "x".data⟩, ⟨"t".data, "c".data, "x".data⟩] 26).length ≤ 26) := by
  decide

theorem joinSep_length (sep : List Char) (parts : List (List Char)) :
    (joinSep sep parts).length
      = (parts.map List.length).sum + sep.length * (parts.length - 1) := by
  induction parts with
  | nil => simp [joinSep]
  | cons x xs ih =>
    cases xs with
    | nil => simp [joinSep]
    | cons y ys =>
      simp only [joinSep, List.length_append, List.map_cons, List.sum_cons,
        List.length_cons, Nat.add_sub_cancel] at ih ⊢
      rw [ih, Nat.mul_succ]
      ring

theorem buildContextParts_sum_le (maxLen : Nat) (results : List KResult) :
    ∀ cur, cur ≤ maxLen →
      cur + ((buildContextParts maxLen results cur).map List.length).sum ≤ maxLen := by
  induction results with
  | nil => intro cur hcur; simpa [buildContextParts] using hcur
  | cons r rs ih =>
    intro cur hcur
    by_cases h : maxLen < cur + (mkContextPart r).length
    · simpa [buildContextParts, h] using hcur
    · push_neg at h
      have := ih (cur + (mkContextPart r).length) h
      simp only [buildContextParts, if_neg (Nat.not_lt.mpr h), List.map_cons,
        List.sum_cons]
      omega

theorem buildContextParts_from_results (maxLen : Nat) (results : List KResult) :
    ∀ cur part, part ∈ buildContextParts maxLen results cur →
      ∃ r ∈ results, part = mkContextPart r := by
  induction results with
  | nil => intro cur part h; simp [buildContextParts] at h
  | cons r rs ih =>
    intro cur part h
    by_cases hc : maxLen < cur + (mkContextPart r).length
    · simp [buildContextParts, hc] at h
    · simp only [buildContextParts, if_neg hc, List.mem_cons] at h
      rcases h with h | h
      · exact ⟨r, List.mem_cons_self r rs, h⟩
      · obtain ⟨r', hr', hp⟩ := ih _ part h
        exact ⟨r', List.mem_cons_of_mem r hr', hp⟩

theorem buildContextParts_length_le (maxLen : Nat) (results : List KResult) :
    ∀ cur, (buildContextParts maxLen results cur).length ≤ results.length := by
  induction results with
  | nil => intro cur; simp [buildContextParts]
  | cons r rs ih =>
    intro cur
    by_cases hc : maxLen < cur + (mkContextPart r).length
    · simp [buildContextParts, hc]
    · simp only [buildContextParts, if_neg hc, List.length_cons]
      exact Nat.succ_le_succ (ih _)

/-- The preview keeps at most 500 characters of the content, plus a
3-character ellipsis exactly when it truncated. -/
theorem contentPreview_length (c : List Char) :
    (contentPreview c).length
      = min c.length 500 + (if 500 < c.length then 3 else 0) := by
  by_cases h : 500 < c.length
  · simp [contentPreview, h, List.length_take, String.data]
    omega
  · simp [contentPreview, h]
    omega

/-- C7 amended: when knowledge results exist, the context returned by
`get_context_for_query` has length at most `max_context_length + (k − 1)`,
where `k` is the number of included snippets (the loop bounds the sum of the
snippet lengths by `max_context_length`; the `"\n".join` adds `k − 1`
separators the check does not count). Each included snippet comes from a
retrieved document, with content truncated to at most 500 characters plus an
ellipsis when truncated. -/
theorem context_length_bound (results : List KResult) (maxLen : Nat)
    (hne : results ≠ []) :
    (getContextForQuery results maxLen).length
      ≤ maxLen + ((buildContextParts maxLen results 0).length - 1) ∧
    (buildContextParts maxLen results 0).length ≤ results.length ∧
    (∀ part ∈ buildContextParts maxLen results 0, ∃ r ∈ results,
      part = mkContextPart r ∧
      (contentPreview r.content).length
        = min r.content.length 500 + (if 500 < r.content.length then 3 else 0)) := by
  refine ⟨?_, ?_, ?_⟩
  · have hsum := buildContextParts_sum_le maxLen results 0 (Nat.zero_le _)
    have hjoin := joinSep_length "\n".data (buildContextParts maxLen results 0)
    have hres : getContextForQuery results maxLen
        = joinSep "\n".data (buildContextParts maxLen results 0) := by
      simp [getContextForQuery, hne]
    have hsep : ("\n".data).length = 1 := rfl
    rw [hres, hjoin, hsep, one_mul]
    omega
  · exact buildContextParts_length_le maxLen results 0
  · intro part hp
    obtain ⟨r, hr, hpr⟩ := buildContextParts_from_results maxLen results 0 part hp
    exact ⟨r, hr, hpr, contentPreview_length r.content⟩

/-- C7 amended, witness: the bound evaluated on one concrete hit with
`max_context_length = 26`. -/
theorem context_length_bound_witness :
    (getContextForQuery [⟨"t".data, "c".data, "x".data⟩] 26).length
      ≤ 26 + ((buildContextParts 26 [⟨"t".data, "c".data, "x".data⟩] 0).length - 1) ∧
    (buildContextParts 26 [⟨"t".data, "c".data, "x".data⟩] 0).length
      ≤ ([⟨"t".data, "c".data, "x".data⟩] : List KResult).length ∧
    (∀ part ∈ buildContextParts 26 [⟨"t".data, "c".data, "x".data⟩] 0,
      ∃ r ∈ ([⟨"t".data, "c".data, "x".data⟩] : List KResult),
        part = mkContextPart r ∧
        (contentPreview r.content).length
          = min r.content.length 500 + (if 500 < r.content.length then 3 else 0)) :=
  context_length_bound [⟨"t".data, "c".data, "x".data⟩] 26 (by decide)

/-! ## Claim C8 -/

/-- C8: every Apollo tool method catches every exception — an arbitrary
`_make_request` failure `err`, and the `ValueError` raised when the API key
is not configured — and returns a dictionary carrying an `"error"` key with
empty or `None` result fields instead of propagating it. -/
theorem apollo_tool_methods_return_error_dicts (err : String) (api_key : Option String)
    (page per_page : Int) (domain : String) (limitN : Nat)
    (pplNet : Except String PeopleSearchPayload) (orgNet : Except String OrgSearchPayload)
    (personNet : Except String (Option ApolloPerson))
    (orgOptNet : Except String (Option ApolloOrg)) :
    (∃ msg, searchPeople page per_page api_key (.error err)
        = [("contacts", .vdicts []), ("error", .vs msg)]) ∧
    searchPeople page per_page none pplNet
        = [("contacts", .vdicts []),
           ("error", .vs "ValueError: Apollo API key not configured")] ∧
    (∃ msg, searchOrganizations page per_page api_key (.error err)
        = [("companies", .vcomps []), ("error", .vs msg)]) ∧
    searchOrganizations page per_page none orgNet
        = [("companies", .vcomps []),
           ("error", .vs "ValueError: Apollo API key not configured")] ∧
    (∃ msg, enrichContact api_key (.error err)
        = [("contact", .vnone), ("enriched", .vb false), ("error", .vs msg)]) ∧
    enrichContact none personNet
        = [("contact", .vnone), ("enriched", .vb false),
           ("error", .vs "ValueError: Apollo API key not configured")] ∧
    (∃ msg, enrichCompany api_key (.error err)
        = [("company", .vnone), ("enriched", .vb false), ("error", .vs msg)]) ∧
    enrichCompany none orgOptNet
        = [("company", .vnone), ("enriched", .vb false),
           ("error", .vs "ValueError: Apollo API key not configured")] ∧
    (∃ msg, getContactDetails api_key (.error err)
        = [("contact", .vnone), ("found", .vb false), ("error", .vs msg)]) ∧
    getContactDetails none personNet
        = [("contact", .vnone), ("found", .vb false),
           ("error", .vs "ValueError: Apollo API key not configured")] ∧
    findSimilarCompanies domain limitN api_key (.error err) orgNet
        = [("companies", .vcomps []), ("error", .vs "Reference company not found")] ∧
    findSimilarCompanies domain limitN none orgOptNet orgNet
        = [("companies", .vcomps []), ("error", .vs "Reference company not found")] := by
  by_cases hk : apolloKeyMissing api_key = true
  · refine ⟨⟨"ValueError: Apollo API key not configured", ?_⟩, rfl,
      ⟨"ValueError: Apollo API key not configured", ?_⟩, rfl,
      ⟨"ValueError: Apollo API key not configured", ?_⟩, rfl,
      ⟨"ValueError: Apollo API key not configured", ?_⟩, rfl,
      ⟨"ValueError: Apollo API key not configured", ?_⟩, rfl, ?_, rfl⟩ <;>
      simp [searchPeople, searchOrganizations, enrichContact, enrichCompany,
        getContactDetails, findSimilarCompanies, apolloMakeRequest, hk, List.lookup]
  · refine ⟨⟨err, ?_⟩, rfl, ⟨err, ?_⟩, rfl, ⟨err, ?_⟩, rfl, ⟨err, ?_⟩, rfl,
      ⟨err, ?_⟩, rfl, ?_, rfl⟩ <;>
      simp [searchPeople, searchOrganizations, enrichContact, enrichCompany,
        getContactDetails, findSimilarCompanies, apolloMakeRequest, hk, List.lookup]

/-! ## Claim C9 -/

/-- C9: both Apollo search payloads carry
`per_page = min(per_page, 100)`, which never exceeds 100. -/
theorem per_page_clamped (query : Option String)
    (company_names titles industriesP locations seniority_levels : Option (List String))
    (industriesO locationsO size_ranges revenue_ranges technologies : Option (List String))
    (page per_page : Int) :
    List.lookup "per_page"
        (searchPeoplePayload query company_names titles industriesP locations
          seniority_levels page per_page) = some (.i (min per_page 100)) ∧
    List.lookup "per_page"
        (searchOrganizationsPayload query industriesO locationsO size_ranges
          revenue_ranges technologies page per_page) = some (.i (min per_page 100)) ∧
    min per_page 100 ≤ 100 := by
  refine ⟨?_, ?_, min_le_right _ _⟩ <;>
    simp [searchPeoplePayload, searchOrganizationsPayload, List.lookup]

/-! ## Claim C10 -/

/-- C10: the id returned by `MarketingKnowledgeBase.add_knowledge` is the
MD5 hex digest of `f"{title}_{content}"`, so two successful calls agreeing
on `title` and `content` return equal ids no matter how `document_type`,
`category`, `tags`, `metadata` or the storage outcome differ. -/
theorem add_knowledge_id_deterministic (md5Hex : String → String) (title content : String)
    (dt1 cat1 : String) (tags1 : List String) (md1 : Option (List (String × String)))
    (o1 : Except String Unit)
    (dt2 cat2 : String) (tags2 : List String) (md2 : Option (List (String × String)))
    (o2 : Except String Unit) (r1 r2 : String)
    (h1 : addKnowledge md5Hex title content dt1 cat1 tags1 md1 o1 = .ok r1)
    (h2 : addKnowledge md5Hex title content dt2 cat2 tags2 md2 o2 = .ok r2) :
    r1 = md5Hex (title ++ "_" ++ content) ∧ r2 = r1 := by
  unfold addKnowledge at h1 h2
  rcases o1 with e1 | u1
  · simp at h1
  · rcases o2 with e2 | u2
    · simp at h2
    · simp only [Except.ok.injEq] at h1 h2
      exact ⟨h1.symm, h2.symm.trans h1⟩

/-- C10 witness: two concrete successful calls differing in every other
argument, with the identity standing in for the external digest. -/
theorem add_knowledge_id_deterministic_witness :
    "a_b" = (fun s : String => s) ("a" ++ "_" ++ "b") ∧ "a_b" = "a_b" :=
  add_knowledge_id_deterministic (fun s => s) "a" "b" "guide" "seo" [] none (.ok ())
    "template" "email" ["x"] (some [("k", "v")]) (.ok ()) "a_b" "a_b" rfl rfl

end AgnoSpec
